import Mathlib

/-!
Shallow embedding of the commonmeta.org PID resolver (src/main.go) and proofs
about the claims of its specification.  Go strings in scope are ASCII
(PIDs, DOIs, MIME types, license URLs), so Go byte indexing/slicing and
`strings.ToLower` / SQLite `LOWER`/`LIKE` are modelled character-wise with an
ASCII lowercase function.  Effectful Go functions are modelled by explicit
parameters for their network inputs and by explicit store passing; a Go
runtime panic is modelled as `none` (for `Option`-valued functions) or by the
dedicated `GoResult.panic` / `HandlerResult.panic` constructors.
-/

namespace Commonmeta

/-- ASCII lowercasing of a character, as performed by Go `strings.ToLower`
and SQLite `LOWER` on ASCII input. -/
def asciiLowerChar (c : Char) : Char :=
  if 'A' ≤ c ∧ c ≤ 'Z' then Char.ofNat (c.toNat + 32) else c

/-- ASCII lowercasing of a string. -/
def asciiLower (s : String) : String :=
  String.mk (s.toList.map asciiLowerChar)

/-- Character-wise model of Go byte slicing `s[0:n]` for ASCII strings. -/
def goTake (s : String) (n : Nat) : String :=
  String.mk (s.toList.take n)

/-- Character-wise model of Go `s[:len(s)-k]` for ASCII strings. -/
def goDropRight (s : String) (k : Nat) : String :=
  String.mk (s.toList.take (s.toList.length - k))

/-- Whether the second character list is an initial run of the first
(structural model of Go `strings.HasPrefix` on ASCII strings). -/
def listBeginsWith : List Char → List Char → Bool
  | _, [] => true
  | [], _ :: _ => false
  | a :: as, b :: bs => a == b && listBeginsWith as bs

/-- Go `strings.HasPrefix` / `u.Path` head tests, character-wise. -/
def strBeginsWith (s p : String) : Bool :=
  listBeginsWith s.toList p.toList

/-- Split a character list at the first occurrence of `sep`, returning the
parts before and after it, or `none` when `sep` does not occur. -/
def splitFirstSeq : List Char → List Char → Option (List Char × List Char)
  | [], sep => if sep.isEmpty then some ([], []) else none
  | c :: cs, sep =>
    if listBeginsWith (c :: cs) sep then some ([], (c :: cs).drop sep.length)
    else
      match splitFirstSeq cs sep with
      | some (a, b) => some (c :: a, b)
      | none => none

/-- Split a character list on a single separator character (Go
`strings.Split` with a one-character separator). -/
def splitOnChar (sep : Char) : List Char → List (List Char)
  | [] => [[]]
  | c :: cs =>
    let r := splitOnChar sep cs
    if c == sep then [] :: r
    else
      match r with
      | h :: t => (c :: h) :: t
      | [] => [[c]]

/-- Go `strings.Split(s, sep)` for a one-character separator. -/
def strSplitOnChar (s : String) (sep : Char) : List String :=
  (splitOnChar sep s.toList).map String.mk

/-- Go map read `m[k]` on a `map[string]string`, returning the zero value
`""` when the key is absent.  The Go maps of main.go are modelled as
association lists in source order. -/
def mapGetD (m : List (String × String)) (k : String) : String :=
  match m.find? (fun p => p.1 == k) with
  | some p => p.2
  | none => ""

/-- Go `strings.Trim(s, "\n")`: strip leading and trailing newlines. -/
def trimNewlines (s : String) : String :=
  String.mk (((s.toList.dropWhile (· == '\n')).reverse.dropWhile (· == '\n')).reverse)

/-- Result of a Go function returning `(T, error)` that can additionally
panic at runtime. -/
inductive GoResult (α : Type) where
  | ok (a : α)
  | err (msg : String)
  | panic
deriving DecidableEq

/-! ## URL model

`net/url` parsing restricted to the URLs this program handles: plain
`scheme://host/path` strings without query, fragment, userinfo or escapes.
Strings without `://` parse with empty scheme and host and the whole string
as path, as Go does for relative references. -/

structure GoUrl where
  scheme : String := ""
  host : String := ""
  path : String := ""
deriving DecidableEq

/-- Parse a URL string into scheme, host and path (model of `url.Parse` /
`url.ParseRequestURI` on the escape-free absolute URLs in scope). -/
def parseUrl (s : String) : GoUrl :=
  match splitFirstSeq s.toList "://".toList with
  | none => { path := s }
  | some (scheme, rest) =>
    let host := rest.takeWhile (· ≠ '/')
    let path := rest.drop host.length
    { scheme := String.mk scheme, host := String.mk host, path := String.mk path }

/-- Reassemble a URL (model of `url.URL.String` for the URLs in scope). -/
def urlString (u : GoUrl) : String :=
  if u.scheme == "" && u.host == "" then u.path
  else u.scheme ++ "://" ++ u.host ++ u.path

/-- Model of main.go lines 1829-1842, `DOIFromUrl`. -/
def DOIFromUrl (str : String) : String :=
  let u := parseUrl str
  if u.host == "" then str
  else if u.host ≠ "doi.org" ∨ ¬ strBeginsWith u.path "/10." then ""
  else String.mk (u.path.toList.dropWhile (· == '/'))

/-- Model of main.go lines 1844-1858, `PrefixFromUrl`: the first path
component after `doi.org/`. -/
def PrefixFromUrl (str : String) : String :=
  let u := parseUrl str
  if u.host == "" then str
  else if u.host ≠ "doi.org" ∨ ¬ strBeginsWith u.path "/10." then ""
  else match (strSplitOnChar u.path '/').get? 1 with
    | some p => p
    | none => ""

/-- Model of main.go lines 1860-1865, `DOIAsUrl`. -/
def DOIAsUrl (str : String) : String :=
  if str == "" then "" else "https://doi.org/" ++ str

/-- Model of main.go lines 1905-1911, `IssnAsUrl`. -/
def IssnAsUrl (issn : String) : String :=
  if issn == "" then "" else "https://portal.issn.org/resource/ISSN/" ++ issn

/-- Model of main.go lines 1913-1926, `dedupeSlice`: keep first occurrences,
preserving order. -/
def dedupeSlice {α : Type} [BEq α] (sliceList : List α) : List α :=
  sliceList.foldl (fun list x => if list.contains x then list else list ++ [x]) []

/-- Left-pad a decimal numeral with zeros to the given width. -/
def zeroPadNat (width : Nat) (n : Nat) : String :=
  let s := toString n
  String.mk (List.replicate (width - s.toList.length) '0') ++ s

/-- Go `fmt.Sprintf` with a `%0<width>d` verb: zero padding counts the sign. -/
def goSprintf0d (width : Nat) (n : Int) : String :=
  if n < 0 then "-" ++ zeroPadNat (width - 1) n.natAbs else zeroPadNat width n.toNat

/-- Model of main.go lines 1887-1903, `GetDateFromParts` (variadic `parts`).
The Go `switch len(parts)` has no case above 3, leaving `arr` nil, so longer
argument lists join to the empty string. -/
def GetDateFromParts (parts : List Int) : String :=
  match parts with
  | [] => ""
  | [y] => goSprintf0d 4 y
  | [y, m] => goSprintf0d 4 y ++ "-" ++ goSprintf0d 2 m
  | [y, m, d] => goSprintf0d 4 y ++ "-" ++ goSprintf0d 2 m ++ "-" ++ goSprintf0d 2 d
  | _ => ""

/-- Model of main.go lines 1867-1885, `GetDateFromDateParts`.  The Go switch
is on the length of the OUTER `dateAsParts` slice while all indexing reads
the FIRST inner slice; `none` models the index-out-of-range panic when that
inner slice is too short for the selected case. -/
def GetDateFromDateParts (dateAsParts : List (List Int)) : Option String :=
  match dateAsParts with
  | [] => some ""
  | [p] =>
    match p with
    | [] => none
    | y :: _ => if y == 0 then some "" else some (GetDateFromParts [y])
  | [p, _] =>
    match p with
    | y :: m :: _ => some (GetDateFromParts [y, m])
    | _ => none
  | [p, _, _] =>
    match p with
    | y :: m :: d :: _ => some (GetDateFromParts [y, m, d])
    | _ => none
  | _ => some ""

/-- Go RE2 match of `^10\.\d{4,9}/.+$` (main.go lines 488, 1647, 1691):
after `10.` a maximal run of 4 to 9 ASCII digits, a slash, and a non-empty
remainder; `.` does not match a newline and `$` anchors at the end of the
text. -/
def isDoiString (s : String) : Bool :=
  match s.toList with
  | c1 :: c2 :: c3 :: rest =>
    c1 == '1' && c2 == '0' && c3 == '.' &&
    (let ds := rest.takeWhile Char.isDigit
     let tail := rest.drop ds.length
     decide (4 ≤ ds.length) && decide (ds.length ≤ 9) &&
       (match tail with
        | c :: suffix => c == '/' && !suffix.isEmpty && suffix.all (fun x => x ≠ '\n')
        | [] => false))
  | _ => false

/-! ## Upstream payload model (`Content` / `Attributes`, main.go lines 31-226)

Fields that no function of main.go ever reads (`Blog`, `GUID`, `Tags`,
`PublishedAt`, `UpdatedAt`, `Via`, `Summary`, `Files`) are omitted; all
fields read by `ReadCrossref` / `ReadDatacite` are present.  JSON numbers in
geo-location coordinates are carried as integers: the code copies them
through unchanged and no claim depends on fractional values. -/

structure AuthorAffiliation where
  ror : String := ""
  name : String := ""
deriving DecidableEq

/-- main.go lines 228-238, Crossref `Author`. -/
structure Author where
  given : String := ""
  family : String := ""
  name : String := ""
  orcid : String := ""
  sequence : String := ""
  affiliation : List AuthorAffiliation := []
deriving DecidableEq

/-- main.go lines 284-287, `CrossrefRelation`. -/
structure CrossrefRelation where
  id : String := ""
  idType : String := ""
deriving DecidableEq

/-- Crossref `issued`/`created` envelope (main.go lines 49-56). -/
structure CRDate where
  dateAsParts : List (List Int) := []
  dateTime : String := ""
deriving DecidableEq

structure ISBNTypeEntry where
  value : String := ""
  isbnType : String := ""
deriving DecidableEq

structure CRLicense where
  url : String := ""
  contentVersion : String := ""
deriving DecidableEq

structure CRLink where
  contentType : String := ""
  url : String := ""
deriving DecidableEq

structure CRReference where
  key : String := ""
  doi : String := ""
  articleTitle : String := ""
  year : String := ""
  unstructured : String := ""
deriving DecidableEq

structure Funder where
  doi : String := ""
  name : String := ""
  award : List String := []
deriving DecidableEq

/-- main.go lines 81-99, the Crossref `Relation` struct, fields in
declaration order (the order `reflect.VisibleFields` iterates them). -/
structure CRRelations where
  isNewVersionOf : List CrossrefRelation := []
  isPreviousVersionOf : List CrossrefRelation := []
  isVersionOf : List CrossrefRelation := []
  hasVersion : List CrossrefRelation := []
  isPartOf : List CrossrefRelation := []
  hasPart : List CrossrefRelation := []
  isVariantFormOf : List CrossrefRelation := []
  isOriginalFormOf : List CrossrefRelation := []
  isIdenticalTo : List CrossrefRelation := []
  isTranslationOf : List CrossrefRelation := []
  isReviewedBy : List CrossrefRelation := []
  reviews : List CrossrefRelation := []
  hasReview : List CrossrefRelation := []
  isPreprintOf : List CrossrefRelation := []
  hasPreprint : List CrossrefRelation := []
  isSupplementTo : List CrossrefRelation := []
  isSupplementedBy : List CrossrefRelation := []
deriving DecidableEq

structure CRResourcePrimary where
  contentType : String := ""
  url : String := ""
deriving DecidableEq

structure CRResource where
  primary : CRResourcePrimary := {}
deriving DecidableEq

structure NameIdentifier where
  schemeUri : String := ""
  nameIdentifier : String := ""
  nameIdentifierScheme : String := ""
deriving DecidableEq

/-- DataCite creator (main.go lines 125-136). -/
structure DCCreator where
  name : String := ""
  givenName : String := ""
  familyName : String := ""
  nameType : String := ""
  nameIdentifiers : List NameIdentifier := []
  affiliation : List String := []
deriving DecidableEq

/-- DataCite contributor (main.go lines 158-170): a creator plus
`contributorType`. -/
structure DCContributor where
  name : String := ""
  givenName : String := ""
  familyName : String := ""
  nameType : String := ""
  nameIdentifiers : List NameIdentifier := []
  affiliation : List String := []
  contributorType : String := ""
deriving DecidableEq

structure DCContainer where
  containerType : String := ""
  identifier : String := ""
  identifierType : String := ""
  title : String := ""
  volume : String := ""
  issue : String := ""
  firstPage : String := ""
  lastPage : String := ""
deriving DecidableEq

structure DCTitle where
  title : String := ""
  titleType : String := ""
  lang : String := ""
deriving DecidableEq

structure DCSubject where
  subject : String := ""
deriving DecidableEq

structure DCDate where
  date : String := ""
  dateType : String := ""
  dateInformation : String := ""
deriving DecidableEq

structure DCTypes where
  resourceTypeGeneral : String := ""
  resourceType : String := ""
deriving DecidableEq

structure DCRelatedIdentifier where
  relatedIdentifier : String := ""
  relatedIdentifierType : String := ""
  relationType : String := ""
deriving DecidableEq

structure DCRights where
  rights : String := ""
  rightsURI : String := ""
  schemeURI : String := ""
  rightsIdentifier : String := ""
  rightsIdentifierScheme : String := ""
deriving DecidableEq

structure DCDescription where
  description : String := ""
  descriptionType : String := ""
  lang : String := ""
deriving DecidableEq

structure DCGeoPoint where
  pointLongitude : Int := 0
  pointLatitude : Int := 0
deriving DecidableEq

structure DCGeoBox where
  westBoundLongitude : Int := 0
  eastBoundLongitude : Int := 0
  southBoundLatitude : Int := 0
  northBoundLatitude : Int := 0
deriving DecidableEq

structure DCGeoLocation where
  geoLocationPoint : DCGeoPoint := {}
  geoLocationBox : DCGeoBox := {}
  geoLocationPlace : String := ""
deriving DecidableEq

structure DCFundingReference where
  funderName : String := ""
  funderIdentifier : String := ""
  funderIdentifierType : String := ""
  awardNumber : String := ""
  awardURI : String := ""
deriving DecidableEq

structure DCAlternateIdentifier where
  identifier : String := ""
  identifierType : String := ""
deriving DecidableEq

/-- main.go lines 117-221, DataCite `Attributes`. -/
structure Attributes where
  doi : String := ""
  attributesPrefix : String := ""
  suffix : String := ""
  alternateIdentifiers : List DCAlternateIdentifier := []
  creators : List DCCreator := []
  publisher : String := ""
  container : DCContainer := {}
  publicationYear : Int := 0
  titles : List DCTitle := []
  url : String := ""
  subjects : List DCSubject := []
  contributors : List DCContributor := []
  dates : List DCDate := []
  language : String := ""
  types : DCTypes := {}
  relatedIdentifiers : List DCRelatedIdentifier := []
  sizes : List String := []
  formats : List String := []
  version : String := ""
  rightsList : List DCRights := []
  descriptions : List DCDescription := []
  geoLocations : List DCGeoLocation := []
  fundingReferences : List DCFundingReference := []
deriving DecidableEq

/-- main.go lines 31-115, the shared upstream `Content` payload. -/
structure Content where
  pid : String := ""
  contentType : String := ""
  attributes : Attributes := {}
  abstract : String := ""
  archive : List String := []
  author : List Author := []
  containerTitle : List String := []
  doi : String := ""
  funder : List Funder := []
  issue : String := ""
  issued : CRDate := {}
  created : CRDate := {}
  issn : List String := []
  isbnType : List ISBNTypeEntry := []
  language : String := ""
  license : List CRLicense := []
  link : List CRLink := []
  page : String := ""
  publisher : String := ""
  reference : List CRReference := []
  relation : CRRelations := {}
  resource : CRResource := {}
  subject : List String := []
  title : List String := []
  url : String := ""
  version : String := ""
  volume : String := ""
deriving DecidableEq

/-! ## Commonmeta (`Work`) model, main.go lines 247-424

Each `types.JsonRaw` column of `Work` is modelled as an `Option` of the
structured value it serializes: `none` is Go `types.JsonRaw(nil)` (JSON
`null`), `some []` is `"[]"`, and `some {}` (all-default record) is `"{}"`.
`json.Marshal` of these struct types cannot fail, so the dead
`if err != nil` fallbacks of the closures are not modelled.  The
`created`/`updated` timestamps produced by `types.NowDateTime()` are
abstracted to `""`. -/

structure ContribAffiliation where
  id : String := ""
  name : String := ""
deriving DecidableEq

/-- main.go lines 258-269, `Contributor`. -/
structure Contributor where
  id : String := ""
  contributorType : String := ""
  name : String := ""
  givenName : String := ""
  familyName : String := ""
  affiliations : List ContribAffiliation := []
  contributorRoles : List String := []
deriving DecidableEq

structure PublisherRec where
  id : String := ""
  name : String := ""
deriving DecidableEq

/-- main.go lines 289-302, `Date`. -/
structure DateRec where
  created : String := ""
  submitted : String := ""
  accepted : String := ""
  published : String := ""
  updated : String := ""
  accessed : String := ""
  available : String := ""
  copyrighted : String := ""
  collected : String := ""
  valid : String := ""
  withdrawn : String := ""
  other : String := ""
deriving DecidableEq

structure Title where
  title : String := ""
  titleType : String := ""
  language : String := ""
deriving DecidableEq

structure Container where
  identifier : String := ""
  identifierType : String := ""
  containerType : String := ""
  title : String := ""
  firstPage : String := ""
  lastPage : String := ""
  volume : String := ""
  issue : String := ""
deriving DecidableEq

structure Subject where
  subject : String := ""
deriving DecidableEq

structure License where
  id : String := ""
  url : String := ""
deriving DecidableEq

/-- `Reference`: the package-level struct (main.go lines 365-371) has no
`url` field; the handler's local variant (lines 438-445) additionally reads
`url`.  The model is the union of the two field sets, `url` defaulting to
`""` (its value when a stored reference is decoded by the handler). -/
structure Reference where
  key : String := ""
  doi : String := ""
  url : String := ""
  title : String := ""
  publicationYear : String := ""
  unstructured : String := ""
deriving DecidableEq

structure Relation where
  id : String := ""
  relationType : String := ""
deriving DecidableEq

structure FundingReference where
  funderIdentifier : String := ""
  funderIdentifierType : String := ""
  funderName : String := ""
  awardNumber : String := ""
  awardURI : String := ""
deriving DecidableEq

structure Description where
  description : String := ""
  descriptionType : String := ""
  language : String := ""
deriving DecidableEq

structure GeoLocationRec where
  geoLocationPlace : String := ""
  geoLocationPoint : DCGeoPoint := {}
  geoLocationBox : DCGeoBox := {}
deriving DecidableEq

structure AlternateIdentifier where
  identifier : String := ""
  identifierType : String := ""
deriving DecidableEq

/-- main.go lines 310-317, `File` (the handler's local variant at lines
433-436 reads the `url` and `mimeType` fields). -/
structure File where
  bucket : String := ""
  key : String := ""
  checksum : String := ""
  url : String := ""
  size : Int := 0
  mimeType : String := ""
deriving DecidableEq

/-- main.go lines 388-422, the `works` collection record. -/
structure Work where
  pid : String := ""
  workType : String := ""
  additionalType : String := ""
  url : String := ""
  contributors : Option (List Contributor) := none
  publisher : Option PublisherRec := none
  date : Option DateRec := none
  titles : Option (List Title) := none
  container : Option Container := none
  subjects : Option (List Subject) := none
  sizes : Option (List String) := none
  formats : Option (List String) := none
  language : String := ""
  license : Option License := none
  version : String := ""
  references : Option (List Reference) := none
  relations : Option (List Relation) := none
  fundingReferences : Option (List FundingReference) := none
  descriptions : Option (List Description) := none
  geoLocations : Option (List GeoLocationRec) := none
  provider : String := ""
  alternateIdentifiers : Option (List AlternateIdentifier) := none
  files : Option (List File) := none
  archiveLocations : Option (List String) := none
  created : String := ""
  updated : String := ""
deriving DecidableEq

/-! ## License normalization, main.go lines 1928-2027 -/

/-- main.go lines 2011-2027, `NormalizeUrl`.  `none` models the
index-out-of-range panic of `u.Path[len(u.Path)-1]` when the parsed path is
empty. -/
def NormalizeUrl (str : String) (secure lower : Bool) : Option String :=
  let u := parseUrl str
  if u.path.length == 0 then none
  else
    let u := if u.path.toList.getLast? == some '/' then { u with path := goDropRight u.path 1 } else u
    let u := if secure && u.scheme == "http" then { u with scheme := "https" } else u
    if lower then some (asciiLower (urlString u)) else some (urlString u)

/-- main.go lines 1929-1969, the `NormalizedLicenses` Creative-Commons alias
table, verbatim (including the `by-nd/4.0 → by-nd/2.0` value on line 1956). -/
def NormalizedLicenses : List (String × String) := [
  ("https://creativecommons.org/licenses/by/1.0", "https://creativecommons.org/licenses/by/1.0/legalcode"),
  ("https://creativecommons.org/licenses/by/2.0", "https://creativecommons.org/licenses/by/2.0/legalcode"),
  ("https://creativecommons.org/licenses/by/2.5", "https://creativecommons.org/licenses/by/2.5/legalcode"),
  ("https://creativecommons.org/licenses/by/3.0", "https://creativecommons.org/licenses/by/3.0/legalcode"),
  ("https://creativecommons.org/licenses/by/3.0/us", "https://creativecommons.org/licenses/by/3.0/legalcode"),
  ("https://creativecommons.org/licenses/by/4.0", "https://creativecommons.org/licenses/by/4.0/legalcode"),
  ("https://creativecommons.org/licenses/by-nc/1.0", "https://creativecommons.org/licenses/by-nc/1.0/legalcode"),
  ("https://creativecommons.org/licenses/by-nc/2.0", "https://creativecommons.org/licenses/by-nc/2.0/legalcode"),
  ("https://creativecommons.org/licenses/by-nc/2.5", "https://creativecommons.org/licenses/by-nc/2.5/legalcode"),
  ("https://creativecommons.org/licenses/by-nc/3.0", "https://creativecommons.org/licenses/by-nc/3.0/legalcode"),
  ("https://creativecommons.org/licenses/by-nc/4.0", "https://creativecommons.org/licenses/by-nc/4.0/legalcode"),
  ("https://creativecommons.org/licenses/by-nd-nc/1.0", "https://creativecommons.org/licenses/by-nd-nc/1.0/legalcode"),
  ("https://creativecommons.org/licenses/by-nd-nc/2.0", "https://creativecommons.org/licenses/by-nd-nc/2.0/legalcode"),
  ("https://creativecommons.org/licenses/by-nd-nc/2.5", "https://creativecommons.org/licenses/by-nd-nc/2.5/legalcode"),
  ("https://creativecommons.org/licenses/by-nd-nc/3.0", "https://creativecommons.org/licenses/by-nd-nc/3.0/legalcode"),
  ("https://creativecommons.org/licenses/by-nd-nc/4.0", "https://creativecommons.org/licenses/by-nd-nc/4.0/legalcode"),
  ("https://creativecommons.org/licenses/by-nc-sa/1.0", "https://creativecommons.org/licenses/by-nc-sa/1.0/legalcode"),
  ("https://creativecommons.org/licenses/by-nc-sa/2.0", "https://creativecommons.org/licenses/by-nc-sa/2.0/legalcode"),
  ("https://creativecommons.org/licenses/by-nc-sa/2.5", "https://creativecommons.org/licenses/by-nc-sa/2.5/legalcode"),
  ("https://creativecommons.org/licenses/by-nc-sa/3.0", "https://creativecommons.org/licenses/by-nc-sa/3.0/legalcode"),
  ("https://creativecommons.org/licenses/by-nc-sa/3.0/us", "https://creativecommons.org/licenses/by-nc-sa/3.0/legalcode"),
  ("https://creativecommons.org/licenses/by-nc-sa/4.0", "https://creativecommons.org/licenses/by-nc-sa/4.0/legalcode"),
  ("https://creativecommons.org/licenses/by-nd/1.0", "https://creativecommons.org/licenses/by-nd/1.0/legalcode"),
  ("https://creativecommons.org/licenses/by-nd/2.0", "https://creativecommons.org/licenses/by-nd/2.0/legalcode"),
  ("https://creativecommons.org/licenses/by-nd/2.5", "https://creativecommons.org/licenses/by-nd/2.5/legalcode"),
  ("https://creativecommons.org/licenses/by-nd/3.0", "https://creativecommons.org/licenses/by-nd/3.0/legalcode"),
  ("https://creativecommons.org/licenses/by-nd/4.0", "https://creativecommons.org/licenses/by-nd/2.0/legalcode"),
  ("https://creativecommons.org/licenses/by-sa/1.0", "https://creativecommons.org/licenses/by-sa/1.0/legalcode"),
  ("https://creativecommons.org/licenses/by-sa/2.0", "https://creativecommons.org/licenses/by-sa/2.0/legalcode"),
  ("https://creativecommons.org/licenses/by-sa/2.5", "https://creativecommons.org/licenses/by-sa/2.5/legalcode"),
  ("https://creativecommons.org/licenses/by-sa/3.0", "https://creativecommons.org/licenses/by-sa/3.0/legalcode"),
  ("https://creativecommons.org/licenses/by-sa/4.0", "https://creativecommons.org/licenses/by-sa/4.0/legalcode"),
  ("https://creativecommons.org/licenses/by-nc-nd/1.0", "https://creativecommons.org/licenses/by-nc-nd/1.0/legalcode"),
  ("https://creativecommons.org/licenses/by-nc-nd/2.0", "https://creativecommons.org/licenses/by-nc-nd/2.0/legalcode"),
  ("https://creativecommons.org/licenses/by-nc-nd/2.5", "https://creativecommons.org/licenses/by-nc-nd/2.5/legalcode"),
  ("https://creativecommons.org/licenses/by-nc-nd/3.0", "https://creativecommons.org/licenses/by-nc-nd/3.0/legalcode"),
  ("https://creativecommons.org/licenses/by-nc-nd/4.0", "https://creativecommons.org/licenses/by-nc-nd/4.0/legalcode"),
  ("https://creativecommons.org/licenses/publicdomain", "https://creativecommons.org/licenses/publicdomain/"),
  ("https://creativecommons.org/publicdomain/zero/1.0", "https://creativecommons.org/publicdomain/zero/1.0/legalcode")]

/-- main.go lines 1928-1984, `NormalizeCCUrl`.  The Go function returns
`(url, error)`; the boolean component is `true` when the table lookup
succeeded and `false` when the "License URL not found" error was returned
alongside the normalized URL.  `none` models the panic inside
`NormalizeUrl`. -/
def NormalizeCCUrl (url : String) : Option (String × Bool) :=
  if url == "" then some ("", true)
  else
    match NormalizeUrl url true true with
    | none => none
    | some u =>
      match mapGetD NormalizedLicenses u, (NormalizedLicenses.map Prod.fst).contains u with
      | _, false => some (u, false)
      | v, true => some (v, true)

/-- main.go lines 1986-2009, `UrlToSPDX` with its `SPDXLicenses` table. -/
def SPDXLicenses : List (String × String) := [
  ("https://creativecommons.org/licenses/by/3.0/legalcode", "CC-BY-3.0"),
  ("https://creativecommons.org/licenses/by/4.0/legalcode", "CC-BY-4.0"),
  ("https://creativecommons.org/licenses/by-nc/3.0/legalcode", "CC-BY-NC-3.0"),
  ("https://creativecommons.org/licenses/by-nc/4.0/legalcode", "CC-BY-NC-4.0"),
  ("https://creativecommons.org/licenses/by-nc-nd/3.0/legalcode", "CC-BY-NC-ND-3.0"),
  ("https://creativecommons.org/licenses/by-nc-nd/4.0/legalcode", "CC-BY-NC-ND-4.0"),
  ("https://creativecommons.org/licenses/by-nc-sa/3.0/legalcode", "CC-BY-NC-SA-3.0"),
  ("https://creativecommons.org/licenses/by-nc-sa/4.0/legalcode", "CC-BY-NC-SA-4.0"),
  ("https://creativecommons.org/licenses/by-nd/3.0/legalcode", "CC-BY-ND-3.0"),
  ("https://creativecommons.org/licenses/by-nd/4.0/legalcode", "CC-BY-ND-4.0"),
  ("https://creativecommons.org/licenses/by-sa/3.0/legalcode", "CC-BY-SA-3.0"),
  ("https://creativecommons.org/licenses/by-sa/4.0/legalcode", "CC-BY-SA-4.0"),
  ("https://creativecommons.org/publicdomain/zero/1.0/legalcode", "CC0-1.0"),
  ("https://creativecommons.org/licenses/publicdomain/", "CC0-1.0"),
  ("https://opensource.org/licenses/MIT", "MIT"),
  ("https://opensource.org/licenses/Apache-2.0", "Apache-2.0"),
  ("https://opensource.org/licenses/GPL-3.0", "GPL-3.0")]

def UrlToSPDX (url : String) : String :=
  mapGetD SPDXLicenses url

/-! ## ReadCrossref, main.go lines 894-1242 -/

/-- main.go lines 898-929, `CRToCMMappings`. -/
def CRToCMMappings : List (String × String) := [
  ("book-chapter", "BookChapter"),
  ("book-part", "BookPart"),
  ("book-section", "BookSection"),
  ("book-series", "BookSeries"),
  ("book-set", "BookSet"),
  ("book-track", "BookTrack"),
  ("book", "Book"),
  ("component", "Component"),
  ("database", "Database"),
  ("dataset", "Dataset"),
  ("dissertation", "Dissertation"),
  ("edited-book", "Book"),
  ("grant", "Grant"),
  ("journal-article", "JournalArticle"),
  ("journal-issue", "JournalIssue"),
  ("journal-volume", "JournalVolume"),
  ("journal", "Journal"),
  ("monograph", "Book"),
  ("other", "Other"),
  ("peer-review", "PeerReview"),
  ("posted-content", "Article"),
  ("proceedings-article", "ProceedingsArticle"),
  ("proceedings-series", "ProceedingsSeries"),
  ("proceedings", "Proceedings"),
  ("reference-book", "Book"),
  ("reference-entry", "Entry"),
  ("report-component", "ReportComponent"),
  ("report-series", "ReportSeries"),
  ("report", "Report"),
  ("standard", "Standard")]

/-- main.go lines 931-939, `CrossrefContainerTypes`. -/
def CrossrefContainerTypes : List (String × String) := [
  ("book-chapter", "book"),
  ("dataset", "database"),
  ("journal-article", "journal"),
  ("journal-issue", "journal"),
  ("monograph", "book-series"),
  ("proceedings-article", "proceedings"),
  ("posted-content", "periodical")]

/-- main.go lines 941-948, `CRToCMContainerTranslations`. -/
def CRToCMContainerTranslations : List (String × String) := [
  ("book", "Book"),
  ("book-series", "BookSeries"),
  ("database", "DataRepository"),
  ("journal", "Journal"),
  ("proceedings", "Proceedings"),
  ("periodical", "Periodical")]

/-- Model of the external `htmlsanitizer.SanitizeString` dependency (not
repository code): treated as the identity, since no claim depends on the
sanitizer's output and its error branch merely yields the empty string. -/
def sanitizeString (s : String) : String := s

/-- `contributors` closure of `ReadCrossref`, main.go lines 955-985. -/
def crossrefContributors (content : Content) : List Contributor :=
  content.author.foldl (fun contributors v =>
    if v.name ≠ "" ∨ v.given ≠ "" ∨ v.family ≠ "" then
      contributors ++ [{
        id := v.orcid
        contributorType := "Person"
        givenName := v.given
        familyName := v.family
        name := v.name
        affiliations := v.affiliation.map (fun a => { id := a.ror, name := a.name })
        contributorRoles := ["Author"] }]
    else contributors) []

/-- `date` closure of `ReadCrossref`, main.go lines 989-1003.  `none` models
the panic inside `GetDateFromDateParts`. -/
def crossrefDate (content : Content) : Option DateRec :=
  if content.issued.dateTime ≠ "" then
    some { published := content.issued.dateTime }
  else if content.issued.dateAsParts.length > 1 then
    (GetDateFromDateParts content.issued.dateAsParts).map fun published =>
      { published := published }
  else if content.created.dateTime ≠ "" then
    some { created := content.created.dateTime }
  else if content.created.dateAsParts.length > 1 then
    (GetDateFromDateParts content.created.dateAsParts).map fun created =>
      { created := created }
  else some {}

/-- `titles` closure, main.go lines 1004-1009. -/
def crossrefTitles (content : Content) : List Title :=
  match content.title with
  | t :: _ => [{ title := t }]
  | [] => []

/-- `descriptions` closure, main.go lines 1010-1029. -/
def crossrefDescriptions (content : Content) : List Description :=
  if content.abstract ≠ "" then
    [{ description := trimNewlines (sanitizeString content.abstract)
       descriptionType := "Abstract" }]
  else []

/-- `container` closure, main.go lines 1030-1067.  The Go guard on ISSN is
`content.ISSN != nil` followed by `content.ISSN[0]`; since `List` cannot
distinguish a nil slice from a non-nil empty one, the model treats the empty
list as nil (the only state an absent JSON field produces). -/
def crossrefContainer (content : Content) : Container :=
  let containerType :=
    mapGetD CRToCMContainerTranslations (mapGetD CrossrefContainerTypes content.contentType)
  let idPair : String × String :=
    match content.issn with
    | i :: _ => (IssnAsUrl i, "ISSN")
    | [] => ("", "")
  let idPair : String × String :=
    match content.isbnType with
    | e :: _ => (e.value, "ISBN")
    | [] => idPair
  let containerTitle :=
    match content.containerTitle with
    | t :: _ => t
    | [] => ""
  let pages := strSplitOnChar content.page '-'
  let firstPage := pages.headD ""
  let lastPage := match pages with
    | _ :: p :: _ => p
    | _ => ""
  { identifier := idPair.1
    identifierType := idPair.2
    containerType := containerType
    title := containerTitle
    volume := content.volume
    issue := content.issue
    firstPage := firstPage
    lastPage := lastPage }

/-- `subjects` closure, main.go lines 1068-1083. -/
def crossrefSubjects (content : Content) : List Subject :=
  content.subject.map fun v => { subject := v }

/-- `references` closure, main.go lines 1084-1103. -/
def crossrefReferences (content : Content) : List Reference :=
  content.reference.map fun v =>
    { key := v.key
      doi := DOIAsUrl v.doi
      title := v.articleTitle
      publicationYear := v.year
      unstructured := v.unstructured }

/-- The `relationTypes` whitelist of the `relations` closure (main.go line
1109). -/
def crossrefRelationTypes : List String :=
  ["IsPartOf", "HasPart", "IsVariantFormOf", "IsOriginalFormOf", "IsIdenticalTo",
   "IsTranslationOf", "IsReviewedBy", "Reviews", "HasReview", "IsPreprintOf",
   "HasPreprint", "IsSupplementTo", "IsSupplementedBy"]

/-- The `Relation` struct fields in declaration order, paired with their
values, as iterated by `reflect.VisibleFields` (main.go lines 1104-1125). -/
def crossrefRelationFields (r : CRRelations) : List (String × List CrossrefRelation) :=
  [("IsNewVersionOf", r.isNewVersionOf),
   ("IsPreviousVersionOf", r.isPreviousVersionOf),
   ("IsVersionOf", r.isVersionOf),
   ("HasVersion", r.hasVersion),
   ("IsPartOf", r.isPartOf),
   ("HasPart", r.hasPart),
   ("IsVariantFormOf", r.isVariantFormOf),
   ("IsOriginalFormOf", r.isOriginalFormOf),
   ("IsIdenticalTo", r.isIdenticalTo),
   ("IsTranslationOf", r.isTranslationOf),
   ("IsReviewedBy", r.isReviewedBy),
   ("Reviews", r.reviews),
   ("HasReview", r.hasReview),
   ("IsPreprintOf", r.isPreprintOf),
   ("HasPreprint", r.hasPreprint),
   ("IsSupplementTo", r.isSupplementTo),
   ("IsSupplementedBy", r.isSupplementedBy)]

/-- `relations` closure, main.go lines 1104-1125. -/
def crossrefRelations (content : Content) : List Relation :=
  (crossrefRelationFields content.relation).foldl (fun relations field =>
    if crossrefRelationTypes.contains field.1 then
      relations ++ field.2.map (fun v => { id := DOIAsUrl v.id, relationType := field.1 })
    else relations) []

/-- `fundingReferences` closure, main.go lines 1126-1160. -/
def crossrefFundingReferences (content : Content) : List FundingReference :=
  dedupeSlice <| content.funder.foldl (fun f v =>
    let funderIdentifier := DOIAsUrl v.doi
    let funderIdentifierType :=
      if strBeginsWith v.doi "10.13039" then "Crossref Funder ID" else ""
    if v.award.length > 0 then
      f ++ v.award.map (fun award =>
        { funderIdentifier := funderIdentifier
          funderIdentifierType := funderIdentifierType
          funderName := v.name
          awardNumber := award })
    else
      f ++ [{ funderIdentifier := funderIdentifier
              funderIdentifierType := funderIdentifierType
              funderName := v.name }]) []

/-- `license` closure, main.go lines 1161-1179: the error of `NormalizeCCUrl`
is discarded (`url, _ := ...`); the outer `none` models its panic. -/
def crossrefLicense (licenses : List CRLicense) : Option License :=
  match licenses with
  | [] => some {}
  | l :: _ =>
    match NormalizeCCUrl l.url with
    | none => none
    | some (url, _) => some { id := UrlToSPDX url, url := url }

/-- `files` closure, main.go lines 1180-1199. -/
def crossrefFiles (content : Content) : List File :=
  if content.link.length > 0 then
    dedupeSlice <| content.link.foldl (fun f v =>
      if v.contentType ≠ "unspecified" then
        f ++ [{ url := v.url, mimeType := v.contentType }]
      else f) []
  else []

/-- `archiveLocations` closure, main.go lines 1200-1211. -/
def crossrefArchiveLocations (content : Content) : List String :=
  content.archive

/-- main.go lines 894-1242, `ReadCrossref`.  The Go function always returns
a nil error; `none` models a runtime panic (reachable through the `date` and
`license` closures). -/
def ReadCrossref (content : Content) : Option Work := do
  let date ← crossrefDate content
  let license ← crossrefLicense content.license
  some {
    pid := DOIAsUrl content.doi
    workType := mapGetD CRToCMMappings content.contentType
    additionalType := ""
    url := content.resource.primary.url
    contributors := some (crossrefContributors content)
    publisher := some { name := content.publisher }
    date := some date
    titles := some (crossrefTitles content)
    container := some (crossrefContainer content)
    subjects := some (crossrefSubjects content)
    sizes := none
    formats := none
    language := content.language
    license := some license
    version := content.version
    references := some (crossrefReferences content)
    relations := some (crossrefRelations content)
    fundingReferences := some (crossrefFundingReferences content)
    descriptions := some (crossrefDescriptions content)
    geoLocations := none
    provider := "Crossref"
    alternateIdentifiers := none
    files := some (crossrefFiles content)
    archiveLocations := some (crossrefArchiveLocations content) }

/-! ## ReadDatacite, main.go lines 1278-1827 -/

/-- main.go lines 1282-1316, `DCToCMTranslations`. -/
def DCToCMTranslations : List (String × String) := [
  ("Audiovisual", "Audiovisual"),
  ("BlogPosting", "Article"),
  ("Book", "Book"),
  ("BookChapter", "BookChapter"),
  ("Collection", "Collection"),
  ("ComputationalNotebook", "ComputationalNotebook"),
  ("ConferencePaper", "ProceedingsArticle"),
  ("ConferenceProceeding", "Proceedings"),
  ("DataPaper", "JournalArticle"),
  ("Dataset", "Dataset"),
  ("Dissertation", "Dissertation"),
  ("Event", "Event"),
  ("Image", "Image"),
  ("Instrument", "Instrument"),
  ("InteractiveResource", "InteractiveResource"),
  ("Journal", "Journal"),
  ("JournalArticle", "JournalArticle"),
  ("Model", "Model"),
  ("OutputManagementPlan", "OutputManagementPlan"),
  ("PeerReview", "PeerReview"),
  ("PhysicalObject", "PhysicalObject"),
  ("Poster", "Presentation"),
  ("Preprint", "Article"),
  ("Report", "Report"),
  ("Service", "Service"),
  ("Software", "Software"),
  ("Sound", "Sound"),
  ("Standard", "Standard"),
  ("StudyRegistration", "StudyRegistration"),
  ("Text", "Document"),
  ("Thesis", "Dissertation"),
  ("Workflow", "Workflow"),
  ("Other", "Other")]

/-- main.go lines 1318-1361, `CommonmetaContributorRoles`. -/
def CommonmetaContributorRoles : List String := [
  "Author", "Editor", "Chair", "Reviewer", "ReviewAssistant", "StatsReviewer",
  "ReviewerExternal", "Reader", "Translator", "ContactPerson", "DataCollector",
  "DataManager", "Distributor", "HostingInstitution", "Producer", "ProjectLeader",
  "ProjectManager", "ProjectMember", "RegistrationAgency", "RegistrationAuthority",
  "RelatedPerson", "ResearchGroup", "RightsHolder", "Researcher", "Sponsor",
  "WorkPackageLeader", "Conceptualization", "DataCuration", "FormalAnalysis",
  "FundingAcquisition", "Investigation", "Methodology", "ProjectAdministration",
  "Resources", "Software", "Supervision", "Validation", "Visualization",
  "WritingOriginalDraft", "WritingReviewEditing", "Maintainer", "Other"]

/-- `u.Path = ""; u.String()` on a parsed name identifier (main.go lines
1383-1387): the scheme and host of the identifier URL. -/
def schemeAndHost (s : String) : String :=
  urlString { parseUrl s with path := "" }

/-- One iteration of the creators loop of `ReadDatacite` (main.go lines
1376-1423).  `none` models the slice-bounds panic of
`v.NameType[:len(v.NameType)-2]` when `nameType` is shorter than two
characters. -/
def dataciteCreatorStep (c : List Contributor) (v : DCCreator) : Option (List Contributor) :=
  if v.name ≠ "" ∨ v.givenName ≠ "" ∨ v.familyName ≠ "" then
    if v.nameType.length < 2 then none
    else
      let type0 := goDropRight v.nameType 2
      let (id, type1) :=
        match v.nameIdentifiers with
        | ni :: _ =>
          let schemeUri := if ni.schemeUri == "" then schemeAndHost ni.nameIdentifier else ni.schemeUri
          let t :=
            if schemeUri == "https://orcid.org" then "Person"
            else if schemeUri == "https://ror.org" then "Organization"
            else type0
          (ni.nameIdentifier, t)
        | [] => ("", type0)
      let (type2, name) :=
        if type1 == "" ∧ (v.givenName ≠ "" ∨ v.familyName ≠ "") then ("Person", "")
        else if type1 == "" then ("Organization", v.name)
        else (type1, v.name)
      some (c ++ [{
        id := id
        contributorType := type2
        givenName := v.givenName
        familyName := v.familyName
        name := name
        contributorRoles := ["Author"]
        affiliations := v.affiliation.map (fun a => { id := "", name := a }) }])
  else some c

/-- One iteration of the contributors merge loop of `ReadDatacite` (main.go
lines 1425-1483): unlike the creators loop, the `nameType` slice is guarded
by `len(v.NameType) > 2`, and an entry whose (possibly empty) identifier
already occurs in the accumulated list is skipped. -/
def dataciteContributorStep (c : List Contributor) (v : DCContributor) : List Contributor :=
  if v.name ≠ "" ∨ v.givenName ≠ "" ∨ v.familyName ≠ "" then
    let type0 := if v.nameType.length > 2 then goDropRight v.nameType 2 else ""
    let (id, type1) :=
      match v.nameIdentifiers with
      | ni :: _ =>
        if ni.nameIdentifierScheme == "ORCID" then (ni.nameIdentifier, "Person")
        else if ni.nameIdentifierScheme == "ROR" then (ni.nameIdentifier, "Organization")
        else (ni.nameIdentifier, type0)
      | [] => ("", type0)
    let (type2, name) :=
      if type1 == "" ∧ (v.givenName ≠ "" ∨ v.familyName ≠ "") then ("Person", "")
      else if type1 == "" then ("Organization", v.name)
      else (type1, v.name)
    let roles := if CommonmetaContributorRoles.contains v.contributorType then [v.contributorType] else []
    if c.any (fun e => e.id == id) then c
    else c ++ [{
      id := id
      contributorType := type2
      givenName := v.givenName
      familyName := v.familyName
      name := name
      contributorRoles := roles
      affiliations := v.affiliation.map (fun a => { id := "", name := a }) }]
  else c

/-- `contributors` closure of `ReadDatacite`, main.go lines 1374-1489:
creators first, then contributors merged in. -/
def dataciteContributors (attributes : Attributes) : Option (List Contributor) := do
  let c ← attributes.creators.foldlM dataciteCreatorStep []
  some (attributes.contributors.foldl dataciteContributorStep c)

/-- `date` closure of `ReadDatacite`, main.go lines 1493-1538: later entries
of the same `dateType` overwrite earlier ones. -/
def dataciteDate (attributes : Attributes) : DateRec :=
  if attributes.dates.length > 0 then
    attributes.dates.foldl (fun date v =>
      let date := if v.dateType == "Accepted" then { date with accepted := v.date } else date
      let date := if v.dateType == "Available" then { date with available := v.date } else date
      let date := if v.dateType == "Collected" then { date with collected := v.date } else date
      let date := if v.dateType == "Copyrighted" then { date with copyrighted := v.date } else date
      let date := if v.dateType == "Created" then { date with created := v.date } else date
      let date := if v.dateType == "Issued" then { date with published := v.date } else date
      let date := if v.dateType == "Submitted" then { date with submitted := v.date } else date
      let date := if v.dateType == "Updated" then { date with updated := v.date } else date
      let date := if v.dateType == "Valid" then { date with valid := v.date } else date
      let date := if v.dateType == "Withdrawn" then { date with withdrawn := v.date } else date
      if v.dateType == "Other" then { date with other := v.date } else date) {}
  else {}

/-- `titles` closure, main.go lines 1539-1562. -/
def dataciteTitles (attributes : Attributes) : List Title :=
  attributes.titles.map fun v =>
    { title := v.title
      titleType :=
        if ["MainTitle", "Subtitle", "TranslatedTitle"].contains v.titleType
        then v.titleType else ""
      language := v.lang }

/-- `container` closure, main.go lines 1563-1579. -/
def dataciteContainer (attributes : Attributes) : Container :=
  { identifier := attributes.container.identifier
    identifierType := attributes.container.identifierType
    containerType := attributes.container.containerType
    title := attributes.container.title
    volume := attributes.container.volume
    issue := attributes.container.issue
    firstPage := attributes.container.firstPage
    lastPage := attributes.container.lastPage }

/-- `subjects` closure, main.go lines 1580-1595. -/
def dataciteSubjects (attributes : Attributes) : List Subject :=
  attributes.subjects.map fun v => { subject := v.subject }

/-- `license` closure, main.go lines 1596-1613: the rights URI is passed to
`UrlToSPDX` without Creative-Commons normalization. -/
def dataciteLicense (attributes : Attributes) : License :=
  match attributes.rightsList with
  | r :: _ => { id := UrlToSPDX r.rightsURI, url := r.rightsURI }
  | [] => {}

/-- `references` closure, main.go lines 1638-1668: the `ref<n>` key uses the
index in the full `relatedIdentifiers` list, not the index among the kept
entries. -/
def dataciteReferences (attributes : Attributes) : List Reference :=
  (attributes.relatedIdentifiers.enum.filterMap fun (i, v) =>
    if ["Cites", "References"].contains v.relationType then
      let isDoi := isDoiString v.relatedIdentifier
      some { key := "ref" ++ toString (i + 1)
             doi := if isDoi then DOIAsUrl v.relatedIdentifier else ""
             unstructured := if isDoi then "" else v.relatedIdentifier }
    else none)

/-- The relation-type whitelist of the `relations` closure (main.go lines
1672-1688). -/
def dataciteSupportedRelations : List String :=
  ["IsNewVersionOf", "IsPreviousVersionOf", "IsVersionOf", "HasVersion",
   "IsPartOf", "HasPart", "IsVariantFormOf", "IsOriginalFormOf",
   "IsIdenticalTo", "IsTranslationOf", "IsReviewedBy", "Reviews",
   "IsPreprintOf", "HasPreprint", "IsSupplementTo"]

/-- `relations` closure, main.go lines 1669-1709. -/
def dataciteRelations (attributes : Attributes) : List Relation :=
  attributes.relatedIdentifiers.filterMap fun v =>
    if dataciteSupportedRelations.contains v.relationType then
      some { id := if isDoiString v.relatedIdentifier
                   then DOIAsUrl v.relatedIdentifier else v.relatedIdentifier
             relationType := v.relationType }
    else none

/-- `fundingReferences` closure, main.go lines 1710-1729. -/
def dataciteFundingReferences (attributes : Attributes) : List FundingReference :=
  attributes.fundingReferences.map fun v =>
    { funderIdentifier := v.funderIdentifier
      funderIdentifierType := v.funderIdentifierType
      funderName := v.funderName
      awardNumber := v.awardNumber
      awardURI := v.awardURI }

/-- `descriptions` closure, main.go lines 1730-1753. -/
def dataciteDescriptions (attributes : Attributes) : List Description :=
  attributes.descriptions.map fun v =>
    { description := v.description
      descriptionType :=
        if ["Abstract", "Summary", "Methods", "TechnicalInfo", "Other"].contains v.descriptionType
        then v.descriptionType else ""
      language := v.lang }

/-- `geoLocations` closure, main.go lines 1754-1779. -/
def dataciteGeoLocations (attributes : Attributes) : List GeoLocationRec :=
  attributes.geoLocations.map fun v =>
    { geoLocationPoint := v.geoLocationPoint
      geoLocationPlace := v.geoLocationPlace
      geoLocationBox := v.geoLocationBox }

/-- `alternateIdentifiers` closure, main.go lines 1780-1796. -/
def dataciteAlternateIdentifiers (attributes : Attributes) : List AlternateIdentifier :=
  attributes.alternateIdentifiers.map fun v =>
    { identifier := v.identifier, identifierType := v.identifierType }

/-- main.go lines 1278-1827, `ReadDatacite`.  The Go function always returns
a nil error; `none` models a runtime panic (reachable through the creators
closure). -/
def ReadDatacite (content : Content) : Option Work := do
  let typeFromGeneral := mapGetD DCToCMTranslations content.attributes.types.resourceTypeGeneral
  let typeFromResource := mapGetD DCToCMTranslations content.attributes.types.resourceType
  let (workType, additionalType) :=
    if typeFromResource ≠ "" then (typeFromResource, "")
    else (typeFromGeneral, content.attributes.types.resourceType)
  let contributors ← dataciteContributors content.attributes
  some {
    pid := DOIAsUrl content.attributes.doi
    workType := workType
    additionalType := additionalType
    url := content.attributes.url
    contributors := some contributors
    publisher := some { name := content.attributes.publisher }
    date := some (dataciteDate content.attributes)
    titles := some (dataciteTitles content.attributes)
    container := some (dataciteContainer content.attributes)
    subjects := some (dataciteSubjects content.attributes)
    sizes := some content.attributes.sizes
    formats := some content.attributes.formats
    language := content.attributes.language
    license := some (dataciteLicense content.attributes)
    version := content.attributes.version
    references := some (dataciteReferences content.attributes)
    relations := some (dataciteRelations content.attributes)
    fundingReferences := some (dataciteFundingReferences content.attributes)
    descriptions := some (dataciteDescriptions content.attributes)
    geoLocations := some (dataciteGeoLocations content.attributes)
    provider := "DataCite"
    alternateIdentifiers := some (dataciteAlternateIdentifiers content.attributes)
    files := none
    archiveLocations := none }

/-! ## WorkStore operations, main.go lines 695-855

The `works` SQLite collection is modelled as a `List Work` in row order;
queries with `Limit(1).One` return the first matching row, and a miss
(`sql.ErrNoRows`) is `none`.  `LOWER` and `LIKE` are ASCII
case-insensitive; `=` and `IN` compare byte-for-byte. -/

/-- main.go lines 699-718, `FindWorkByPid`: case-insensitive exact match
(`LOWER(pid) = LOWER(input)`). -/
def FindWorkByPid (store : List Work) (pid : String) : Option Work :=
  store.find? fun w => asciiLower w.pid == asciiLower pid

/-- main.go lines 782-801, `FindWorksByPids`: `pid IN (...)`, a
case-sensitive exact match, rows in store order. -/
def FindWorksByPids (store : List Work) (pids : List String) : List Work :=
  store.filter fun w => pids.contains w.pid

/-- `pid LIKE '<pat>%'` (main.go lines 808-813): ASCII case-insensitive
prefix match (the probe patterns in scope contain no further `%` or `_`
wildcards). -/
def findWorkByPidLike (store : List Work) (pat : String) : Option Work :=
  store.find? fun w => strBeginsWith (asciiLower w.pid) (asciiLower pat)

/-- An entry of the `https://doi.org/ra/<prefix>` JSON response (main.go
lines 832-835). -/
structure RAEntry where
  entryDOI : String := ""
  entryRA : String := ""
deriving DecidableEq

/-- main.go lines 830-855, `FindDoiRegistrationAgencyFromHandle`.
`handleBody` is the decoded handle-service response: `.error` when the GET,
the body read, or `json.Unmarshal` failed, `.ok` the parsed entry list
otherwise.  `result[0]` on an empty parsed array is an index-out-of-range
panic. -/
def FindDoiRegistrationAgencyFromHandle (handleBody : Except String (List RAEntry))
    (doi : String) : GoResult String :=
  let _ := PrefixFromUrl doi
  match handleBody with
  | .error e => .err e
  | .ok [] => .panic
  | .ok (entry :: _) => .ok entry.entryRA

/-- main.go lines 803-828, `FindDoiRegistrationAgency`.  `doi[0:24]` is a
slice-bounds panic when the pid is shorter than 24 bytes; otherwise the
first 24 characters (prefix truncated or slash-included depending on the
DOI prefix length) are used both as the `LIKE` pattern and as the argument
passed on to the handle-service lookup. -/
def FindDoiRegistrationAgency (store : List Work)
    (handleBody : Except String (List RAEntry)) (doi : String) : GoResult String :=
  if doi.length < 24 then .panic
  else
    let substr := goTake doi 24
    match findWorkByPidLike store substr with
    | some work => .ok work.provider
    | none => FindDoiRegistrationAgencyFromHandle handleBody substr

/-- main.go lines 720-780, `CreateWorkByPid`.  `location` is the `Location`
header of the (successful) HEAD request to the DOI; the final `dao.Save` is
the caller-visible insert and is performed by returning the record. -/
def CreateWorkByPid (store : List Work) (handleBody : Except String (List RAEntry))
    (location : String) (pid : String) : GoResult Work :=
  let u := parseUrl pid
  if u.host ≠ "doi.org" then .err "Only DOIs are supported"
  else
    match FindDoiRegistrationAgency store handleBody pid with
    | .panic => .panic
    | .err e => .err e
    | .ok provider => .ok {
        pid := pid
        workType := ""
        additionalType := ""
        url := location
        contributors := some []
        publisher := some {}
        date := some {}
        titles := some []
        container := some {}
        subjects := some []
        sizes := some []
        formats := some []
        language := ""
        license := some {}
        version := ""
        references := some []
        relations := some []
        fundingReferences := some []
        descriptions := some []
        geoLocations := some []
        provider := provider
        alternateIdentifiers := some []
        files := some []
        archiveLocations := some [] }

/-! ## The `GET /:str` handler, main.go lines 481-688

The handler is modelled from the store lookup (line 524) onward:
`pid`, `str`, `contentType` and `isDoi` are the values produced by the
parsing and negotiation steps of lines 483-522.  Network responses are
explicit parameters (`handleBody` for the handle service, `crossrefResp` /
`dataciteResp` for the upstream APIs, each `.error` when the fetch or parse
failed).  The `echo` response is a `HandlerResult`; `dao.Save(newWork)` on
the populate path appends the new row. -/

inductive HandlerResult where
  /-- `c.JSON(http.StatusOK, work)` (line 662): 200 with the work as body.
  `expandedRefs = some ws` models the overwrite
  `work.References = json.Marshal(references)` of line 621 — the served
  body carries the expanded records in place of the stored references. -/
  | okJson (work : Work) (expandedRefs : Option (List Work))
  /-- `c.Redirect(status, location)`. -/
  | redirect (status : Nat) (location : String)
  /-- `c.JSON(http.StatusNotFound, ...)`. -/
  | jsonNotFound (msg : String)
  /-- `c.JSON(http.StatusNotAcceptable, ...)`. -/
  | notAcceptable (msg : String)
  /-- A non-nil error returned to echo. -/
  | serverError (msg : String)
  /-- A runtime panic inside the handler. -/
  | panic
deriving DecidableEq

/-- main.go line 578: the content types served without delegating to DOI
content negotiation. -/
def contentTypes : List String :=
  ["text/html", "application/vnd.commonmeta+json", "application/json",
   "text/markdown", "application/vnd.jats+xml", "application/xml", "application/pdf"]

/-- Lines 607-615: the pid strings of the stored references (doi first,
else url, skipping entries with neither). -/
def refPids (r : List Reference) : List String :=
  r.filterMap fun v =>
    if v.doi ≠ "" then some v.doi
    else if v.url ≠ "" then some v.url
    else none

/-- Lines 637-640: the Go `files` map read at a MIME type; later slice
entries overwrite earlier ones, a missing key reads `""`. -/
def fileMapLookup (f : List File) (mimeType : String) : String :=
  f.foldl (fun acc v => if v.mimeType == mimeType then v.url else acc) ""

/-- main.go lines 577-684: dispatch once a non-nil `work` is in hand. -/
def serveWork (store : List Work) (handleBody : Except String (List RAEntry))
    (work : Work) (pid str contentType : String) : HandlerResult :=
  if ¬ contentTypes.contains contentType then
    match FindDoiRegistrationAgency store handleBody pid with
    | .panic => .panic
    | .err e => .serverError e
    | .ok ra =>
      if ra == "Crossref" then
        .redirect 302 ("https://api.crossref.org/works/" ++ str ++ "/transform/" ++ contentType)
      else if ra == "DataCite" then
        .redirect 302 ("https://data.crosscite.org/" ++ contentType ++ "/" ++ str)
      else
        .jsonNotFound "Work not found and content negotiation not supported"
  else if contentType == "text/html" then
    .redirect 302 work.url
  else
    match work.references with
    | none => .serverError "unexpected end of JSON input"
    | some r =>
      let expandedRefs : Option (List Work) :=
        if r.length > 0 then
          let references := FindWorksByPids store (refPids r)
          if references.length > 0 then some references else none
        else none
      match work.files with
      | none => .serverError "unexpected end of JSON input"
      | some f =>
        let markdownUrl := fileMapLookup f "text/markdown"
        let pdfUrl := fileMapLookup f "application/pdf"
        let jatsUrlXml := fileMapLookup f "application/xml"
        let jatsUrl := if jatsUrlXml == "" then fileMapLookup f "application/vnd.jats+xml" else jatsUrlXml
        if work.workType == "" then
          .notAcceptable "Work not yet converted to Commonmeta format"
        else if contentType == "application/vnd.commonmeta+json" ∨ contentType == "application/json" then
          .okJson work expandedRefs
        else if contentType == "text/markdown" then
          if markdownUrl == "" then .notAcceptable "Markdown version not available"
          else .redirect 302 markdownUrl
        else if contentType == "application/vnd.jats+xml" ∨ contentType == "application/xml" then
          if jatsUrl == "" then .notAcceptable "JATS XML version not available"
          else .redirect 302 jatsUrl
        else if contentType == "application/pdf" then
          if pdfUrl == "" then .notAcceptable "PDF version not available"
          else .redirect 302 pdfUrl
        else
          .notAcceptable ("Content-Type " ++ contentType ++ " not supported")

/-- main.go lines 524-684: store lookup, populate-on-miss, dispatch.
Returns the response together with the store left behind. -/
def handleGetCore (store : List Work) (handleBody : Except String (List RAEntry))
    (crossrefResp dataciteResp : Except String Content)
    (isDoi : Bool) (pid str contentType : String) : HandlerResult × List Work :=
  match FindWorkByPid store pid with
  | some work => (serveWork store handleBody work pid str contentType, store)
  | none =>
    match FindDoiRegistrationAgency store handleBody pid with
    | .panic => (.panic, store)
    | .err e => (.serverError e, store)
    | .ok ra =>
      if isDoi ∧ ra == "Crossref" then
        match crossrefResp with
        | .error e => (.serverError e, store)
        | .ok content =>
          match ReadCrossref content with
          | none => (.panic, store)
          | some newWork =>
            let store := store ++ [newWork]
            match FindWorkByPid store newWork.pid with
            | some work => (serveWork store handleBody work pid str contentType, store)
            | none => (.jsonNotFound "Not found", store)
      else if isDoi ∧ ra == "DataCite" then
        match dataciteResp with
        | .error e => (.serverError e, store)
        | .ok content =>
          match ReadDatacite content with
          | none => (.panic, store)
          | some newWork =>
            let store := store ++ [newWork]
            match FindWorkByPid store newWork.pid with
            | some work => (serveWork store handleBody work pid str contentType, store)
            | none => (.jsonNotFound "Not found", store)
      else (.jsonNotFound "Not found", store)

/-! ## Helper lemmas -/

theorem mapGetD_eq_empty (m : List (String × String)) (k : String)
    (h : k ∉ m.map Prod.fst) : mapGetD m k = "" := by
  unfold mapGetD
  cases hf : m.find? (fun p => p.1 == k) with
  | none => rfl
  | some p =>
    have hbeq : p.1 = k := by
      have hp := List.find?_some hf
      simpa using hp
    exact absurd (hbeq ▸ List.mem_map_of_mem Prod.fst (List.mem_of_find?_eq_some hf)) h

theorem find?_eq_some_of_mem_unique {α : Type} (p : α → Bool) (l : List α) (w : α)
    (huniq : l.Pairwise (fun a b => ¬(p a = true ∧ p b = true)))
    (hw : w ∈ l) (hpw : p w = true) : l.find? p = some w := by
  induction l with
  | nil => cases hw
  | cons a t ih =>
    rw [List.pairwise_cons] at huniq
    rcases List.mem_cons.mp hw with h | h
    · subst h
      exact List.find?_cons_of_pos _ hpw
    · cases hpa : p a with
      | true => exact absurd ⟨hpa, hpw⟩ (huniq.1 w h)
      | false =>
        rw [List.find?_cons_of_neg _ (by simp [hpa])]
        exact ih huniq.2 h

/-! ## Claim theorems -/

set_option maxRecDepth 16384

/-- The four content types that claim C1 takes to be natively served
(members of the spec's set `C`) but that are absent from the handler's
`contentTypes` list. -/
def claimedNativeExtraTypes : List String :=
  ["application/vnd.citationstyles.csl+json", "application/vnd.datacite.datacite+json",
   "application/vnd.schemaorg.ld+json", "application/vnd.crossref.unixsd+xml"]

/-- C1, counterexample: with a stored Work in hand and negotiated type
`application/vnd.citationstyles.csl+json`, the handler answers a 302
redirect to the Crossref transform service (or a 404 when the registration
agency is neither Crossref nor DataCite) — never a 200 with a normalized
body. -/
theorem c1_counterexample :
    serveWork [{ pid := "https://doi.org/10.5555/12345678", provider := "Crossref" }]
        (Except.error "handle unreachable")
        { pid := "https://doi.org/10.5555/12345678", workType := "JournalArticle" }
        "https://doi.org/10.5555/12345678" "10.5555/12345678"
        "application/vnd.citationstyles.csl+json" =
      .redirect 302 "https://api.crossref.org/works/10.5555/12345678/transform/application/vnd.citationstyles.csl+json" ∧
    serveWork [{ pid := "https://doi.org/10.9999/1", provider := "mEDRA" }]
        (Except.error "handle unreachable")
        { pid := "https://doi.org/10.9999/1", workType := "JournalArticle" }
        "https://doi.org/10.9999/1" "10.9999/1"
        "application/vnd.schemaorg.ld+json" =
      .jsonNotFound "Work not found and content negotiation not supported" := by
  constructor <;> rfl

/-- C1, amended: for every negotiated content type in the four claimed
types, the handler never returns a 200 body; it delegates with a 302 to the
documented Crossref/DataCite transform URL, 404s for other agencies, and
propagates errors or panics of the agency lookup. -/
theorem c1_delegates_claimed_native_types (store : List Work)
    (handleBody : Except String (List RAEntry)) (work : Work) (pid str ct : String)
    (hct : ct ∈ claimedNativeExtraTypes) :
    (∀ w r, serveWork store handleBody work pid str ct ≠ .okJson w r) ∧
    (FindDoiRegistrationAgency store handleBody pid = .ok "Crossref" →
      serveWork store handleBody work pid str ct =
        .redirect 302 ("https://api.crossref.org/works/" ++ str ++ "/transform/" ++ ct)) ∧
    (FindDoiRegistrationAgency store handleBody pid = .ok "DataCite" →
      serveWork store handleBody work pid str ct =
        .redirect 302 ("https://data.crosscite.org/" ++ ct ++ "/" ++ str)) ∧
    (∀ ra, FindDoiRegistrationAgency store handleBody pid = .ok ra →
      ra ≠ "Crossref" → ra ≠ "DataCite" →
      serveWork store handleBody work pid str ct =
        .jsonNotFound "Work not found and content negotiation not supported") := by
  have hnc : contentTypes.contains ct = false := by
    fin_cases hct <;> decide
  unfold serveWork
  rw [hnc]
  simp only [Bool.false_eq_true, not_false_eq_true, if_true]
  refine ⟨?_, ?_, ?_, ?_⟩
  · intro w r
    cases hra : FindDoiRegistrationAgency store handleBody pid with
    | ok ra =>
      by_cases h1 : ra == "Crossref" <;> by_cases h2 : ra == "DataCite" <;>
        simp [h1, h2]
    | err e => simp
    | panic => simp
  · intro hra
    rw [hra]
    rfl
  · intro hra
    rw [hra]
    rfl
  · intro ra hra h1 h2
    rw [hra]
    simp [h1, h2]

/-- C1, witness for the amended theorem at a concrete store, work and
content type. -/
theorem c1_delegates_witness :
    serveWork [{ pid := "https://doi.org/10.5555/12345678", provider := "DataCite" }]
        (Except.error "handle unreachable")
        { pid := "https://doi.org/10.5555/12345678", workType := "Dataset" }
        "https://doi.org/10.5555/12345678" "10.5555/12345678"
        "application/vnd.datacite.datacite+json" =
      .redirect 302 "https://data.crosscite.org/application/vnd.datacite.datacite+json/10.5555/12345678" := by
  exact (c1_delegates_claimed_native_types _ _ _ _ _ _ (by decide)).2.2.1 (by decide)

/-- C2: the handler can panic on well-formed external JSON — an empty JSON
array from the handle RA service hits `result[0]`, a DataCite creator whose
`nameType` has fewer than two characters hits `v.NameType[:len(v.NameType)-2]`,
and a Crossref `issued.date-parts` with two inner arrays whose first has one
element hits `dateAsParts[0][1]`. -/
theorem c2_panic_evaluation :
    FindDoiRegistrationAgencyFromHandle (Except.ok []) "https://doi.org/10.1234/" = .panic ∧
    ReadDatacite { attributes := { creators := [{ name := "Miller" }] } } = none ∧
    ReadCrossref { issued := { dateAsParts := [[2020], [2021]] } } = none := by
  exact ⟨rfl, rfl, rfl⟩

/-- C3: `GetDateFromDateParts` switches on the length of the outer
`date-parts` array while reading the first inner array, so the Crossref
shapes `[[y,m]]` and `[[y,m,d]]` both format as `YYYY` only; the month/day
formatting of `GetDateFromParts` is correct but unreachable for them, and
the `ReadCrossref` date closure (guard `len > 1` on the outer array) skips
such a date entirely. -/
theorem c3_date_parts_evaluation :
    GetDateFromDateParts [[2023]] = some "2023" ∧
    GetDateFromDateParts [[2023, 5]] = some "2023" ∧
    GetDateFromDateParts [[2023, 5, 1]] = some "2023" ∧
    GetDateFromParts [2023, 5] = "2023-05" ∧
    GetDateFromParts [2023, 5, 1] = "2023-05-01" ∧
    crossrefDate { issued := { dateAsParts := [[2023, 5, 1]] } } = some {} := by
  exact ⟨rfl, rfl, rfl, rfl, rfl, rfl⟩

/-- C4, counterexample: a Crossref type absent from `CRToCMMappings`
(`"preprint"`) and a DataCite `resourceTypeGeneral` absent from
`DCToCMTranslations` (`"TextStream"`) produce a Work whose type is the Go
zero value `""`, not `"Other"`. -/
theorem c4_counterexample :
    (ReadCrossref { contentType := "preprint" }).map Work.workType = some "" ∧
    (ReadDatacite { attributes := { types := { resourceTypeGeneral := "TextStream" } } }).map
      Work.workType = some "" ∧
    ("" : String) ≠ "Other" := by
  exact ⟨rfl, rfl, by decide⟩

/-- C4, amended: for every upstream payload whose source work type is not a
key of the fixed translation table, the Work produced by `ReadCrossref` or
`ReadDatacite` has type equal to the empty string (the minimal-record
marker), the zero value of a Go map read — not `"Other"`. -/
theorem c4_unknown_type_yields_empty :
    (∀ content w, content.contentType ∉ CRToCMMappings.map Prod.fst →
      ReadCrossref content = some w → w.workType = "") ∧
    (∀ content w,
      content.attributes.types.resourceTypeGeneral ∉ DCToCMTranslations.map Prod.fst →
      content.attributes.types.resourceType ∉ DCToCMTranslations.map Prod.fst →
      ReadDatacite content = some w → w.workType = "") := by
  constructor
  · intro content w h hr
    rw [ReadCrossref] at hr
    simp only [bind, Option.bind_eq_some, Option.some.injEq] at hr
    obtain ⟨d, _, l, _, hw⟩ := hr
    subst hw
    exact mapGetD_eq_empty _ _ h
  · intro content w h1 h2 hr
    rw [ReadDatacite] at hr
    simp only [bind, Option.bind_eq_some, Option.some.injEq] at hr
    obtain ⟨c, _, hw⟩ := hr
    subst hw
    simp only [mapGetD_eq_empty _ _ h1, mapGetD_eq_empty _ _ h2]
    simp

/-- C4, witness for the amended theorem at the concrete unknown source types
of the counterexample. -/
theorem c4_unknown_type_witness :
    ("preprint" ∉ CRToCMMappings.map Prod.fst) ∧
    (ReadCrossref { contentType := "preprint" }).map Work.workType = some "" := by
  refine ⟨by decide, ?_⟩
  cases hw : ReadCrossref { contentType := "preprint" } with
  | none => exact absurd hw (by decide)
  | some w =>
    have h := c4_unknown_type_yields_empty.1 _ w (by decide) hw
    simp [h]

/-- C5, counterexample: the alias-table entry for CC-BY 1.0 normalizes to a
URL that is not in the SPDX table, so its `license.id` is empty (refuting
the first half of the claim); and the URL
`https://creativecommons.org/licenses/by/4.0/legalcode`, which is not an
alias-table key, produces the non-empty id `CC-BY-4.0` (refuting the second
half). -/
theorem c5_counterexample :
    ("https://creativecommons.org/licenses/by/1.0",
      "https://creativecommons.org/licenses/by/1.0/legalcode") ∈ NormalizedLicenses ∧
    "https://creativecommons.org/licenses/by/1.0/legalcode" ∉ SPDXLicenses.map Prod.fst ∧
    crossrefLicense [{ url := "https://creativecommons.org/licenses/by/1.0" }] =
      some { id := "", url := "https://creativecommons.org/licenses/by/1.0/legalcode" } ∧
    "https://creativecommons.org/licenses/by/4.0/legalcode" ∉ NormalizedLicenses.map Prod.fst ∧
    crossrefLicense [{ url := "https://creativecommons.org/licenses/by/4.0/legalcode" }] =
      some { id := "CC-BY-4.0", url := "https://creativecommons.org/licenses/by/4.0/legalcode" } := by
  exact ⟨by decide, by decide, rfl, by decide, rfl⟩

set_option maxHeartbeats 16000000 in
/-- C5, amended: every alias-table key normalizes to the table's value and
its `license.id` is the SPDX lookup of that value — non-empty for the
3.0/4.0 entries of the by, by-nc, by-nc-sa, by-nc-nd and by-sa families,
for by-nd/3.0, and for both publicdomain entries (`CC0-1.0`), but empty for
every 1.0/2.0/2.5 entry, the whole by-nd-nc family, and the by-nd/4.0 entry
whose table value is mistyped; a URL not in the alias table keeps its
normalized form as `license.url` with the SPDX lookup of that form as
`license.id` (which can be non-empty). -/
theorem c5_license_normalization :
    (∀ p ∈ NormalizedLicenses, NormalizeCCUrl p.1 = some (p.2, true) ∧
      crossrefLicense [{ url := p.1 }] = some { id := UrlToSPDX p.2, url := p.2 }) ∧
    (∀ u u', NormalizeCCUrl u = some (u', false) →
      crossrefLicense [{ url := u }] = some { id := UrlToSPDX u', url := u' }) := by
  constructor
  · decide
  · intro u u' h
    simp [crossrefLicense, h]

set_option maxHeartbeats 1600000 in
/-- C5, witness for the amended theorem at concrete alias-table keys — one
whose SPDX lookup is empty would be by/1.0; shown here are by-nc/4.0 and
the publicdomain entry, whose normalized URL
`https://creativecommons.org/licenses/publicdomain/` is an SPDX key
yielding the non-empty id `CC0-1.0` — and at a concrete URL outside the
table. -/
theorem c5_license_witness :
    NormalizeCCUrl "https://creativecommons.org/licenses/by-nc/4.0" =
      some ("https://creativecommons.org/licenses/by-nc/4.0/legalcode", true) ∧
    crossrefLicense [{ url := "https://creativecommons.org/licenses/publicdomain" }] =
      some { id := UrlToSPDX "https://creativecommons.org/licenses/publicdomain/",
             url := "https://creativecommons.org/licenses/publicdomain/" } ∧
    UrlToSPDX "https://creativecommons.org/licenses/publicdomain/" = "CC0-1.0" ∧
    crossrefLicense [{ url := "https://opensource.org/licenses/MIT" }] =
      some { id := UrlToSPDX "https://opensource.org/licenses/mit",
             url := "https://opensource.org/licenses/mit" } := by
  exact ⟨(c5_license_normalization.1
            ("https://creativecommons.org/licenses/by-nc/4.0",
             "https://creativecommons.org/licenses/by-nc/4.0/legalcode") (by decide)).1,
         (c5_license_normalization.1
            ("https://creativecommons.org/licenses/publicdomain",
             "https://creativecommons.org/licenses/publicdomain/") (by decide)).2,
         by decide,
         c5_license_normalization.2 _ _ (by decide)⟩

theorem isDoiString_length (s : String) (h : isDoiString s = true) : 9 ≤ s.length := by
  rw [isDoiString] at h
  rcases hl : s.toList with _ | ⟨c1, _ | ⟨c2, _ | ⟨c3, rest⟩⟩⟩ <;> rw [hl] at h
  · simp at h
  · simp at h
  · simp at h
  · simp only [Bool.and_eq_true, decide_eq_true_eq] at h
    obtain ⟨-, ⟨hds, -⟩, htail⟩ := h
    revert htail
    rcases hd : rest.drop (rest.takeWhile Char.isDigit).length with _ | ⟨c, suffix⟩ <;>
      intro htail
    · simp at htail
    · simp only [Bool.and_eq_true, Bool.not_eq_true'] at htail
      obtain ⟨⟨-, hne⟩, -⟩ := htail
      have hsuffix : suffix ≠ [] := by
        intro he
        rw [he] at hne
        simp at hne
      have htw : (rest.takeWhile Char.isDigit).length ≤ rest.length :=
        (List.takeWhile_prefix _).length_le
      have hdl : (c :: suffix).length = rest.length - (rest.takeWhile Char.isDigit).length := by
        rw [← hd, List.length_drop]
      have hsl : 1 ≤ suffix.length := List.length_pos.mpr hsuffix
      have hslen : s.length = s.toList.length := rfl
      rw [hslen, hl]
      simp only [List.length_cons]
      simp only [List.length_cons] at hdl
      omega

theorem doiPid_goTake24 (str : String) :
    goTake ("https://doi.org/" ++ str) 24 = "https://doi.org/" ++ goTake str 8 := by
  show String.mk (("https://doi.org/".toList ++ str.toList).take 24) = _
  rw [List.take_append_eq_append_take]
  have h16 : ("https://doi.org/".toList).length = 16 := by decide
  rw [h16, List.take_of_length_le (by rw [h16]; omega)]
  rfl

/-- C6, counterexample: for the 6-digit-prefix pid
`https://doi.org/10.123456/abc` the store is probed with the first 24
characters, `https://doi.org/10.12345`, not with
`https://doi.org/<prefix>%`: a stored Work under the different prefix
`10.123457` (whose pid does not begin with `https://doi.org/10.123456`)
matches the probe, so its provider is returned instead of the
handle-service answer. -/
theorem c6_counterexample :
    FindDoiRegistrationAgency
        [{ pid := "https://doi.org/10.123457/xyz", provider := "DataCite" }]
        (Except.ok [{ entryRA := "Crossref" }]) "https://doi.org/10.123456/abc" =
      .ok "DataCite" ∧
    PrefixFromUrl "https://doi.org/10.123456/abc" = "10.123456" ∧
    strBeginsWith (asciiLower "https://doi.org/10.123457/xyz")
      (asciiLower ("https://doi.org/" ++ "10.123456")) = false := by
  exact ⟨rfl, rfl, rfl⟩

/-- C6, amended: for every DOI-shaped pid `https://doi.org/10.<d…>/<sfx>`
(4-9 digit prefix, non-empty suffix), the registration-agency lookup never
hits the `doi[0:24]` slice panic — such pids have at least 25 characters —
and probes the store with the pattern built from the first 24 characters of
the pid (`https://doi.org/` plus the first 8 characters of the DOI), which
coincides with `https://doi.org/<prefix>%` only for 5-digit prefixes.  The
unrelated panic of the handle-service branch is excluded by assuming the
parsed response is non-empty. -/
theorem c6_ra_probe (store : List Work) (handleBody : Except String (List RAEntry))
    (str : String) (h : isDoiString str = true)
    (hbody : ∀ l, handleBody = Except.ok l → l ≠ []) :
    FindDoiRegistrationAgency store handleBody ("https://doi.org/" ++ str) ≠ .panic ∧
    goTake ("https://doi.org/" ++ str) 24 = "https://doi.org/" ++ goTake str 8 := by
  refine ⟨?_, doiPid_goTake24 str⟩
  unfold FindDoiRegistrationAgency
  have hlen : ¬ ("https://doi.org/" ++ str).length < 24 := by
    have h9 := isDoiString_length str h
    have happ : ("https://doi.org/" ++ str).length = 16 + str.length := by
      show ("https://doi.org/".toList ++ str.toList).length = _
      rw [List.length_append]
      rfl
    omega
  rw [if_neg hlen]
  cases hf : findWorkByPidLike store (goTake ("https://doi.org/" ++ str) 24) with
  | some w => simp [hf]
  | none =>
    cases hb : handleBody with
    | error e => simp [hf, hb, FindDoiRegistrationAgencyFromHandle]
    | ok l =>
      cases l with
      | nil => exact absurd rfl (hbody [] hb)
      | cons a t => simp [hf, hb, FindDoiRegistrationAgencyFromHandle]

/-- C6, witness for the amended theorem at a concrete DOI-shaped pid. -/
theorem c6_ra_probe_witness :
    FindDoiRegistrationAgency [] (Except.ok [{ entryRA := "Crossref" }])
        ("https://doi.org/" ++ "10.1234/abc") ≠ .panic ∧
    goTake ("https://doi.org/" ++ "10.1234/abc") 24 =
      "https://doi.org/" ++ goTake "10.1234/abc" 8 := by
  exact c6_ra_probe [] _ "10.1234/abc" (by decide)
    (by intro l hl; injection hl with h2; subst h2; simp)

/-- C7: under the store invariant that pids are unique up to ASCII case,
`FindWorkByPid` returns the stored Work for every input equal to its pid up
to ASCII case, and returns `none` (not an error) for every input matching no
stored pid case-insensitively. -/
theorem c7_find_by_pid_contract (store : List Work) (s : String)
    (huniq : store.Pairwise (fun a b => asciiLower a.pid ≠ asciiLower b.pid)) :
    (∀ w ∈ store, asciiLower s = asciiLower w.pid → FindWorkByPid store s = some w) ∧
    ((∀ w ∈ store, asciiLower w.pid ≠ asciiLower s) → FindWorkByPid store s = none) := by
  constructor
  · intro w hw hmatch
    refine find?_eq_some_of_mem_unique _ _ _ (huniq.imp ?_) hw ?_
    · intro a b hab hpq
      exact hab ((eq_of_beq hpq.1).trans (eq_of_beq hpq.2).symm)
    · exact beq_iff_eq.mpr hmatch.symm
  · intro hall
    unfold FindWorkByPid
    rw [List.find?_eq_none]
    intro x hx
    simp [hall x hx]

/-- C7, witness: a mixed-case hit returns the stored record and a
non-matching lookup returns `none`. -/
theorem c7_find_by_pid_witness :
    FindWorkByPid
        [{ pid := "https://doi.org/10.5555/ABC" }, { pid := "https://doi.org/10.5555/xyz" }]
        "https://doi.org/10.5555/abc" =
      some { pid := "https://doi.org/10.5555/ABC" } ∧
    FindWorkByPid [{ pid := "https://doi.org/10.5555/ABC" }] "https://doi.org/10.9999/zzz" =
      none := by
  constructor
  · exact (c7_find_by_pid_contract _ _ (by decide)).1 _ (by decide) (by decide)
  · exact (c7_find_by_pid_contract _ _ (by decide)).2 (by decide)

/-- C8, counterexample: `ReadCrossref` leaves `sizes`, `formats`,
`geoLocations` and `alternateIdentifiers` as `types.JsonRaw(nil)` (JSON
null), and `ReadDatacite` leaves `files` and `archiveLocations` null — not
empty arrays. -/
theorem c8_counterexample :
    (ReadCrossref {}).map (fun w => (w.sizes, w.formats, w.geoLocations, w.alternateIdentifiers)) =
      some (none, none, none, none) ∧
    (ReadDatacite {}).map (fun w => (w.files, w.archiveLocations)) = some (none, none) := by
  exact ⟨rfl, rfl⟩

/-- C8, amended: `CreateWorkByPid` sets every JSON-valued field to an empty
array/object; `ReadCrossref` leaves exactly `sizes`, `formats`,
`geoLocations`, `alternateIdentifiers` null and `ReadDatacite` leaves
exactly `files`, `archiveLocations` null, while all their other JSON-valued
fields are non-null. -/
theorem c8_json_field_defaults :
    (∀ store handleBody location pid w,
      CreateWorkByPid store handleBody location pid = .ok w →
      w.contributors = some [] ∧ w.publisher = some {} ∧ w.date = some {} ∧
      w.titles = some [] ∧ w.container = some {} ∧ w.subjects = some [] ∧
      w.sizes = some [] ∧ w.formats = some [] ∧ w.license = some {} ∧
      w.references = some [] ∧ w.relations = some [] ∧ w.fundingReferences = some [] ∧
      w.descriptions = some [] ∧ w.geoLocations = some [] ∧
      w.alternateIdentifiers = some [] ∧ w.files = some [] ∧ w.archiveLocations = some []) ∧
    (∀ content w, ReadCrossref content = some w →
      w.contributors.isSome ∧ w.publisher.isSome ∧ w.date.isSome ∧ w.titles.isSome ∧
      w.container.isSome ∧ w.subjects.isSome ∧ w.license.isSome ∧ w.references.isSome ∧
      w.relations.isSome ∧ w.fundingReferences.isSome ∧ w.descriptions.isSome ∧
      w.files.isSome ∧ w.archiveLocations.isSome ∧
      w.sizes = none ∧ w.formats = none ∧ w.geoLocations = none ∧
      w.alternateIdentifiers = none) ∧
    (∀ content w, ReadDatacite content = some w →
      w.contributors.isSome ∧ w.publisher.isSome ∧ w.date.isSome ∧ w.titles.isSome ∧
      w.container.isSome ∧ w.subjects.isSome ∧ w.sizes.isSome ∧ w.formats.isSome ∧
      w.license.isSome ∧ w.references.isSome ∧ w.relations.isSome ∧
      w.fundingReferences.isSome ∧ w.descriptions.isSome ∧ w.geoLocations.isSome ∧
      w.alternateIdentifiers.isSome ∧ w.files = none ∧ w.archiveLocations = none) := by
  refine ⟨?_, ?_, ?_⟩
  · intro store handleBody location pid w h
    unfold CreateWorkByPid at h
    by_cases hd : (parseUrl pid).host ≠ "doi.org"
    · rw [if_pos hd] at h
      cases h
    · rw [if_neg hd] at h
      cases hra : FindDoiRegistrationAgency store handleBody pid with
      | ok provider =>
        rw [hra] at h
        injection h with hw
        subst hw
        exact ⟨rfl, rfl, rfl, rfl, rfl, rfl, rfl, rfl, rfl, rfl, rfl, rfl, rfl, rfl, rfl, rfl, rfl⟩
      | err e =>
        rw [hra] at h
        cases h
      | panic =>
        rw [hra] at h
        cases h
  · intro content w h
    rw [ReadCrossref] at h
    simp only [bind, Option.bind_eq_some, Option.some.injEq] at h
    obtain ⟨d, _, l, _, hw⟩ := h
    subst hw
    exact ⟨rfl, rfl, rfl, rfl, rfl, rfl, rfl, rfl, rfl, rfl, rfl, rfl, rfl, rfl, rfl, rfl, rfl⟩
  · intro content w h
    rw [ReadDatacite] at h
    simp only [bind, Option.bind_eq_some, Option.some.injEq] at h
    obtain ⟨c, _, hw⟩ := h
    subst hw
    exact ⟨rfl, rfl, rfl, rfl, rfl, rfl, rfl, rfl, rfl, rfl, rfl, rfl, rfl, rfl, rfl, rfl, rfl⟩

/-- C8, witness for the amended theorem at concrete inputs: a minimal record
from `CreateWorkByPid` and the empty upstream payloads. -/
theorem c8_json_field_witness :
    (∀ w, CreateWorkByPid [] (Except.ok [{ entryRA := "Crossref" }]) "https://example.org/a"
        "https://doi.org/10.5555/12345678" = .ok w → w.sizes = some [] ∧ w.files = some []) ∧
    (ReadCrossref {}).map (fun w => (w.sizes, w.contributors.isSome)) = some (none, true) ∧
    (ReadDatacite {}).map (fun w => (w.files, w.sizes.isSome)) = some (none, true) := by
  refine ⟨?_, ?_, ?_⟩
  · intro w h
    obtain ⟨h1, h2, h3, h4, h5, h6, h7, h8, h9, h10, h11, h12, h13, h14, h15, h16, h17⟩ :=
      c8_json_field_defaults.1 _ _ _ _ w h
    exact ⟨h7, h16⟩
  · cases hw : ReadCrossref {} with
    | none => exact absurd hw (by decide)
    | some w =>
      obtain ⟨h1, h2, h3, h4, h5, h6, h7, h8, h9, h10, h11, h12, h13, h14, h15, h16, h17⟩ :=
        c8_json_field_defaults.2.1 {} w hw
      simp [h14, h1]
  · cases hw : ReadDatacite {} with
    | none => exact absurd hw (by decide)
    | some w =>
      obtain ⟨h1, h2, h3, h4, h5, h6, h7, h8, h9, h10, h11, h12, h13, h14, h15, h16, h17⟩ :=
        c8_json_field_defaults.2.2 {} w hw
      simp [h16, h7]

/-- C9: on a store hit, serving the request leaves the store unchanged (the
`dao.Save` after reference expansion is commented out), and for a
Commonmeta-JSON response with non-empty references matching stored Works
the served body carries the expanded records in place of the stored
references — the replacement exists only in the response. -/
theorem c9_reference_expansion_frame (store : List Work)
    (handleBody : Except String (List RAEntry))
    (crossrefResp dataciteResp : Except String Content)
    (isDoi : Bool) (pid str ct : String) (work : Work)
    (hwork : FindWorkByPid store pid = some work) :
    (handleGetCore store handleBody crossrefResp dataciteResp isDoi pid str ct).2 = store ∧
    (handleGetCore store handleBody crossrefResp dataciteResp isDoi pid str ct).1 =
      serveWork store handleBody work pid str ct ∧
    (∀ rs fs, work.references = some rs → rs ≠ [] → work.files = some fs →
      work.workType ≠ "" → ct = "application/vnd.commonmeta+json" →
      FindWorksByPids store (refPids rs) ≠ [] →
      serveWork store handleBody work pid str ct =
        .okJson work (some (FindWorksByPids store (refPids rs)))) := by
  refine ⟨?_, ?_, ?_⟩
  · unfold handleGetCore
    rw [hwork]
  · unfold handleGetCore
    rw [hwork]
  · intro rs fs hrs hne hfs htype hct hexp
    subst hct
    unfold serveWork
    rw [hrs, hfs]
    have hin : contentTypes.contains "application/vnd.commonmeta+json" = true := rfl
    rw [hin]
    simp only [Bool.true_eq_false, not_true_eq_false, if_false, reduceIte]
    have hlen : rs.length > 0 := List.length_pos.mpr hne
    have hlen2 : (FindWorksByPids store (refPids rs)).length > 0 := List.length_pos.mpr hexp
    simp [hlen, hlen2, htype]

/-- C9, witness at a concrete two-work store: Work A references Work B; the
response is a 200 whose body carries B expanded, and the store after the
request equals the store before. -/
theorem c9_reference_expansion_witness :
    (handleGetCore
        [{ pid := "https://doi.org/10.1/a", workType := "JournalArticle",
           references := some [{ key := "ref1", doi := "https://doi.org/10.1/b" }],
           files := some [] },
         { pid := "https://doi.org/10.1/b", workType := "JournalArticle" }]
        (Except.error "offline") (Except.error "offline") (Except.error "offline") true
        "https://doi.org/10.1/a" "10.1/a" "application/vnd.commonmeta+json").2 =
      [{ pid := "https://doi.org/10.1/a", workType := "JournalArticle",
         references := some [{ key := "ref1", doi := "https://doi.org/10.1/b" }],
         files := some [] },
       { pid := "https://doi.org/10.1/b", workType := "JournalArticle" }] ∧
    (handleGetCore
        [{ pid := "https://doi.org/10.1/a", workType := "JournalArticle",
           references := some [{ key := "ref1", doi := "https://doi.org/10.1/b" }],
           files := some [] },
         { pid := "https://doi.org/10.1/b", workType := "JournalArticle" }]
        (Except.error "offline") (Except.error "offline") (Except.error "offline") true
        "https://doi.org/10.1/a" "10.1/a" "application/vnd.commonmeta+json").1 =
      .okJson
        { pid := "https://doi.org/10.1/a", workType := "JournalArticle",
          references := some [{ key := "ref1", doi := "https://doi.org/10.1/b" }],
          files := some [] }
        (some [{ pid := "https://doi.org/10.1/b", workType := "JournalArticle" }]) := by
  obtain ⟨h1, h2, h3⟩ := c9_reference_expansion_frame
    [{ pid := "https://doi.org/10.1/a", workType := "JournalArticle",
       references := some [{ key := "ref1", doi := "https://doi.org/10.1/b" }],
       files := some [] },
     { pid := "https://doi.org/10.1/b", workType := "JournalArticle" }]
    (Except.error "offline") (Except.error "offline") (Except.error "offline") true
    "https://doi.org/10.1/a" "10.1/a" "application/vnd.commonmeta+json"
    { pid := "https://doi.org/10.1/a", workType := "JournalArticle",
      references := some [{ key := "ref1", doi := "https://doi.org/10.1/b" }],
      files := some [] }
    (by decide)
  refine ⟨h1, ?_⟩
  rw [h2, h3 _ [] rfl (by decide) rfl (by decide) rfl (by decide)]
  rfl

/-- C10: `FindWorksByPids` matches pids by exact (case-sensitive) string
equality, unlike the case-insensitive `FindWorkByPid`: a stored Work is
returned exactly when its pid occurs verbatim in the query list, and a
query differing from the stored pid only in ASCII letter case returns
nothing from the batch lookup even though the single-pid lookup finds the
record. -/
theorem c10_batch_lookup_case_sensitive (store : List Work) (pids : List String)
    (w : Work) (s : String) (hmem : w ∈ store)
    (hcase : asciiLower s = asciiLower w.pid) (hne : s ≠ w.pid)
    (hnopid : ∀ v ∈ store, v.pid ≠ s) :
    (w ∈ FindWorksByPids store pids ↔ w.pid ∈ pids) ∧
    FindWorksByPids store [s] = [] ∧
    (FindWorkByPid store s).isSome := by
  refine ⟨?_, ?_, ?_⟩
  · unfold FindWorksByPids
    rw [List.mem_filter]
    constructor
    · intro h
      have := h.2
      simpa using this
    · intro h
      exact ⟨hmem, by simpa using h⟩
  · unfold FindWorksByPids
    rw [List.filter_eq_nil]
    intro v hv
    simp [hnopid v hv]
  · unfold FindWorkByPid
    rw [List.find?_isSome]
    exact ⟨w, hmem, by simp [hcase]⟩

/-- C10, witness: a reference pid differing from the stored pid only in
case is found by `FindWorkByPid` but excluded from `FindWorksByPids`. -/
theorem c10_batch_lookup_witness :
    ({ pid := "https://doi.org/10.5555/B" } ∈
        FindWorksByPids [{ pid := "https://doi.org/10.5555/B" }] ["https://doi.org/10.5555/b"] ↔
      ("https://doi.org/10.5555/B" : String) ∈ ["https://doi.org/10.5555/b"]) ∧
    FindWorksByPids [{ pid := "https://doi.org/10.5555/B" }] ["https://doi.org/10.5555/b"] = [] ∧
    (FindWorkByPid [{ pid := "https://doi.org/10.5555/B" }] "https://doi.org/10.5555/b").isSome := by
  exact c10_batch_lookup_case_sensitive
    [{ pid := "https://doi.org/10.5555/B" }] ["https://doi.org/10.5555/b"]
    { pid := "https://doi.org/10.5555/B" } "https://doi.org/10.5555/b"
    (by decide) (by decide) (by decide) (by decide)

end Commonmeta
